import Mathlib

/-!
Verification of the batch sentiment-classification pipeline of the
`genai-streamlit-app` repository.

The pipeline lives in `src/templates/model_responses.py`
(`analyze_single_review`, `analyze_all_reviews`) and
`src/templates/prompt_templates.py` (`create_sentiment_prompt`).  This file
gives a shallow embedding of those functions and proves the specification
claims about them.

Modelling conventions:
* Python runtime values that can flow through the pipeline (cell values of
  the dataframe, model replies, decoded JSON) are modelled by `PyVal`.
* Python floats are modelled as exact rationals (`Rat`); the pipeline never
  performs arithmetic on them, it only converts, stores and compares.
* Python exceptions are modelled by `Except`: an exception raised by the
  injected chat function is `Except.error`, and the classifier's internal
  try/except is the `Except PyErr` pipeline `decode_response >>= build_result`.
* Side effects on the injected callbacks (`progress_callback`,
  `warning_callback`) are modelled by an explicit event trace (`Event`);
  the callbacks themselves return `None` in Python, so only whether a sink
  was supplied (a `Bool`) and which calls were made to it matter.
* A pandas `DataFrame` is modelled column-oriented (`DataFrame` below) with
  an explicit integer index list, matching `df.iterrows()` which yields
  index *labels*, not positions.
-/

namespace SentimentPipeline

/-- A Python runtime value, as far as the pipeline can observe it:
strings, floats (modelled as exact rationals), booleans, `None`,
and `dict`s with string keys (the shape produced by `json.loads` for the
object payloads the pipeline consumes).  JSON arrays are not produced by
any reply the claims exercise; a reply whose payload is not an object
fails field extraction (`.get`) exactly like any other non-dict value. -/
inductive PyVal : Type where
  | pstr : String → PyVal
  | pnum : Rat → PyVal
  | pbool : Bool → PyVal
  | pnone : PyVal
  | pdict : List (String × PyVal) → PyVal
deriving Repr

/-- Python's `str()` coercion for the values above, as used by the f-string
in `create_sentiment_prompt`.  Exact for the constructors any claim
evaluates (`pstr`, `pnone`, `pbool`); for `pnum`/`pdict` a decimal/structural
rendering stands in for Python's `repr`-style formatting. -/
def pyStrOf : PyVal → String
  | .pstr s => s
  | .pnum q => toString q
  | .pbool b => if b then "True" else "False"
  | .pnone => "None"
  | .pdict _ => "{...}"

/-- One observable side effect of a pipeline run:
a call of the injected chat function, of the progress sink, or of the
warning sink.  `current` of a progress call is an `Int` because the code
computes it as `idx + 1` from the dataframe's index label. -/
inductive Event : Type where
  | chatCall : String → Event
  | progress : Int → Nat → String → Event
  | warn : String → Event
deriving Repr, DecidableEq

/-- `dataclass SentimentResult` of `model_responses.py`.  The `sentiment`
field is whatever object `result.get("sentiment", "neutral")` returned —
the dataclass performs no validation, so it is a `PyVal`, not necessarily a
string.  `score` and `confidence` have passed through `float(...)`. -/
structure SentimentResult : Type where
  sentiment : PyVal
  score : Rat
  confidence : Rat
deriving Repr

/-- The sentinel result returned on any classification failure. -/
def errorSentinel : SentimentResult :=
  { sentiment := .pstr "error", score := 0, confidence := 0 }

/-! ### Python string primitives used by the parser -/

/-- Python `s.find(c)`: index of the first occurrence, `-1` if absent. -/
def pyFind (s : String) (c : Char) : Int :=
  match s.data.findIdx? (fun d => d = c) with
  | some i => Int.ofNat i
  | none => -1

/-- Python `s.rfind(c)`: index of the last occurrence, `-1` if absent. -/
def pyRfind (s : String) (c : Char) : Int :=
  match s.data.reverse.findIdx? (fun d => d = c) with
  | some j => Int.ofNat (s.data.length - 1 - j)
  | none => -1

/-- Python `s[a:b]` for non-negative bounds: empty when `b ≤ a`,
clamped at the end of the string. -/
def pySlice (s : String) (a b : Nat) : String :=
  String.mk ((s.data.drop a).take (b - a))

/-! ### `json.loads`, modelled for the payload language the pipeline consumes

A recursive-descent decoder for JSON values built from objects with string
keys, strings (with the single-character escapes), numbers (with optional
fraction and exponent, decoded as exact rationals), `true`, `false` and
`null`.  Fuel bounds the recursion; `jsonLoads` supplies fuel larger than
the input, so fuel exhaustion is unreachable for inputs it accepts.
Decode failure is an `Except.error` carrying a message, standing for
Python's `json.JSONDecodeError`. -/

/-- Whitespace accepted between JSON tokens (`json.loads` default). -/
def jsonWs (c : Char) : Bool :=
  c = ' ' || c = '\t' || c = '\n' || c = '\r'

/-- Drop leading JSON whitespace. -/
def skipWs : List Char → List Char
  | [] => []
  | c :: rest => if jsonWs c then skipWs rest else c :: rest

/-- Decimal digits to a natural number. -/
def digitsToNat (ds : List Char) : Nat :=
  ds.foldl (fun a c => a * 10 + (c.toNat - 48)) 0

/-- Parse an exponent suffix (after `e`/`E`): sign and digits. -/
def parseExpDigits (r : List Char) : Option (Bool × Nat × List Char) :=
  let (eneg, r1) := match r with
    | '+' :: t => (false, t)
    | '-' :: t => (true, t)
    | _ => (false, r)
  let (es, r2) := r1.span Char.isDigit
  if es = [] then none else some (eneg, digitsToNat es, r2)

/-- Parse a JSON number (`-? int frac? exp?`, no leading zeros) as an exact
rational, returning the remaining input.  The rational is assembled with
`mkRat` from the integer mantissa and a power-of-ten denominator. -/
def parseNumber (cs : List Char) : Option (Rat × List Char) :=
  let (neg, cs1) := match cs with
    | '-' :: r => (true, r)
    | _ => (false, cs)
  let (ds, cs2) := cs1.span Char.isDigit
  if ds = [] then none
  else if ds.length > 1 && ds.headD '0' = '0' then none
  else
    let fracRes : Option (List Char × List Char) := match cs2 with
      | '.' :: r =>
        let (fs, r2) := r.span Char.isDigit
        if fs = [] then none else some (fs, r2)
      | _ => some ([], cs2)
    match fracRes with
    | none => none
    | some (fracDigits, cs3) =>
      let mant : Int := Int.ofNat (digitsToNat (ds ++ fracDigits))
      let smant : Int := if neg then -mant else mant
      let k : Nat := fracDigits.length
      match cs3 with
      | 'e' :: r =>
        match parseExpDigits r with
        | none => none
        | some (eneg, e, r2) =>
          if eneg then some (mkRat smant (10 ^ (k + e)), r2)
          else some (mkRat (smant * 10 ^ e) (10 ^ k), r2)
      | 'E' :: r =>
        match parseExpDigits r with
        | none => none
        | some (eneg, e, r2) =>
          if eneg then some (mkRat smant (10 ^ (k + e)), r2)
          else some (mkRat (smant * 10 ^ e) (10 ^ k), r2)
      | _ => some (mkRat smant (10 ^ k), cs3)

/-- Parse the body of a JSON string after the opening quote, handling the
single-character escapes.  Returns the decoded string and remaining input. -/
def parseStringBody (fuel : Nat) (cs : List Char) (acc : List Char) :
    Option (String × List Char) :=
  match fuel, cs with
  | 0, _ => none
  | _, [] => none
  | f + 1, c :: rest =>
    if c = '"' then some (String.mk acc.reverse, rest)
    else if c = '\\' then
      match rest with
      | [] => none
      | e :: rest2 =>
        let esc : Option Char :=
          if e = '"' then some '"'
          else if e = '\\' then some '\\'
          else if e = '/' then some '/'
          else if e = 'b' then some (Char.ofNat 8)
          else if e = 'f' then some (Char.ofNat 12)
          else if e = 'n' then some '\n'
          else if e = 'r' then some '\r'
          else if e = 't' then some '\t'
          else none
        match esc with
        | some ch => parseStringBody f rest2 (ch :: acc)
        | none => none
    else parseStringBody f rest (c :: acc)

mutual

/-- Parse one JSON value, returning it and the remaining input. -/
def parseVal (fuel : Nat) (cs : List Char) : Option (PyVal × List Char) :=
  match fuel with
  | 0 => none
  | f + 1 =>
    match skipWs cs with
    | [] => none
    | c :: rest =>
      if c = '\x7b' then
        match skipWs rest with
        | '\x7d' :: r2 => some (.pdict [], r2)
        | r2 => parseMembers f r2 []
      else if c = '"' then
        (parseStringBody f rest []).map (fun p => (.pstr p.1, p.2))
      else if c = 't' then
        if rest.take 3 = ['r', 'u', 'e'] then some (.pbool true, rest.drop 3) else none
      else if c = 'f' then
        if rest.take 4 = ['a', 'l', 's', 'e'] then some (.pbool false, rest.drop 4) else none
      else if c = 'n' then
        if rest.take 3 = ['u', 'l', 'l'] then some (.pnone, rest.drop 3) else none
      else
        (parseNumber (c :: rest)).map (fun p => (.pnum p.1, p.2))

/-- Parse the members of a JSON object after its opening brace (non-empty
case), accumulating key-value pairs. -/
def parseMembers (fuel : Nat) (cs : List Char) (acc : List (String × PyVal)) :
    Option (PyVal × List Char) :=
  match fuel with
  | 0 => none
  | f + 1 =>
    match skipWs cs with
    | '"' :: rest =>
      match parseStringBody f rest [] with
      | none => none
      | some (k, r1) =>
        match skipWs r1 with
        | ':' :: r2 =>
          match parseVal f r2 with
          | none => none
          | some (v, r3) =>
            match skipWs r3 with
            | ',' :: r4 => parseMembers f r4 ((k, v) :: acc)
            | '\x7d' :: r4 => some (.pdict ((k, v) :: acc).reverse, r4)
            | _ => none
        | _ => none
    | _ => none

end

/-- `json.loads`: decode a complete JSON document, rejecting trailing
non-whitespace. -/
def jsonLoads (s : String) : Except String PyVal :=
  match parseVal (s.length + 2) s.data with
  | none => .error "Expecting value"
  | some (v, rest) =>
    match skipWs rest with
    | [] => .ok v
    | _ => .error "Extra data"

/-! ### `dict.get` and `float(...)` -/

/-- Python `dict.get(k)` on the decoded payload: the value stored under
key `k`, i.e. the value of the *last* occurrence of `k` (Python dicts keep
one entry per key, the last assignment winning, which is how `json.loads`
treats duplicate keys). -/
def pyGet (d : List (String × PyVal)) (k : String) : Option PyVal :=
  (d.reverse.find? (fun p => p.1 = k)).map (fun p => p.2)

/-- Python `float(x)` on the values the pipeline can pass to it:
numbers pass through, booleans become 0/1, numeric strings are parsed
(modelled for plain decimal/exponent literals), everything else raises —
modelled as `none`. -/
def pyFloat : PyVal → Option Rat
  | .pnum q => some q
  | .pbool b => some (if b then 1 else 0)
  | .pstr s =>
    match parseNumber ((s.data.dropWhile jsonWs).reverse.dropWhile jsonWs).reverse with
    | some (q, []) => some q
    | _ => none
  | _ => none

/-! ### `create_sentiment_prompt` (`src/templates/prompt_templates.py`)

The f-string interpolates `str(review_text)`; the annotation `review_text:
str` is not enforced at runtime, and `analyze_all_reviews` feeds it raw
dataframe cells, so the argument is a `PyVal`. -/

/-- The fixed instruction text before the interpolated review. -/
def promptPrefix : String :=
  "Analyze the sentiment of the following product review and respond with ONLY a JSON object in this exact format:\n\x7b\"sentiment\": \"positive\" or \"negative\" or \"neutral\", \"score\": float between -1.0 and 1.0, \"confidence\": float between 0.0 and 1.0\x7d\n\nReview: "

/-- The fixed instruction text after the interpolated review. -/
def promptSuffix : String :=
  "\n\nRemember: Respond with ONLY the JSON object, no additional text."

/-- `create_sentiment_prompt`: renders the classification instruction
around the `str()` of its argument. -/
def create_sentiment_prompt (review_text : PyVal) : String :=
  promptPrefix ++ pyStrOf review_text ++ promptSuffix

/-! ### `analyze_single_review` (`src/templates/model_responses.py`) -/

/-- The two exception classes the classifier's handlers distinguish:
`json.JSONDecodeError` (caught first) and every other `Exception`. -/
inductive PyErr : Type where
  | jsonDecode : String → PyErr
  | other : String → PyErr
deriving Repr, DecidableEq

/-- Lines 62–74 of `model_responses.py`: turn the raw chat response into
the `result` object.  A string response is sliced from the first `{` to
the last `}` when both exist (whole string otherwise) and JSON-decoded;
any non-string response is used as-is. -/
def decode_response (response : PyVal) : Except PyErr PyVal :=
  match response with
  | .pstr s =>
    let start_idx := pyFind s '\x7b'
    let end_idx := pyRfind s '\x7d'
    if start_idx ≠ -1 ∧ end_idx ≠ -1 then
      match jsonLoads (pySlice s start_idx.toNat (end_idx.toNat + 1)) with
      | .ok r => .ok r
      | .error m => .error (.jsonDecode m)
    else
      match jsonLoads s with
      | .ok r => .ok r
      | .error m => .error (.jsonDecode m)
  | r => .ok r

/-- Lines 76–80 of `model_responses.py`: build the `SentimentResult` from
the `result` object.  `.get` with defaults `"neutral"`, `0.0`, `0.5`;
`float(...)` conversion of score then confidence; a non-dict `result` (no
`.get` attribute) and a failed conversion raise ordinary exceptions. -/
def build_result (result : PyVal) : Except PyErr SentimentResult :=
  match result with
  | .pdict d =>
    let sentiment := (pyGet d "sentiment").getD (.pstr "neutral")
    match pyFloat ((pyGet d "score").getD (.pnum 0)) with
    | none => .error (.other "could not convert value to float")
    | some score =>
      match pyFloat ((pyGet d "confidence").getD (.pnum (mkRat 1 2))) with
      | none => .error (.other "could not convert value to float")
      | some confidence => .ok ⟨sentiment, score, confidence⟩
  | _ => .error (.other "object has no attribute get")

/-- Lines 62–80 as one step: decode the raw reply and build the result,
propagating the first failure. -/
def parseReply (response : PyVal) : Except PyErr SentimentResult :=
  match decode_response response with
  | .error e => .error e
  | .ok result => build_result result

/-- The classifier body inside the `try`: invoke the chat function and run
the parse/build sequence, propagating the first failure.  An exception
raised by `chat_function` is `Except.error` with its message. -/
def classifyAttempt (review_text : PyVal) (chat_function : String → Except String PyVal) :
    Except PyErr SentimentResult :=
  match chat_function (create_sentiment_prompt review_text) with
  | .error e => .error (.other e)
  | .ok response => parseReply response

/-- The warning text each handler would emit for a given failure. -/
def warningText : PyErr → String
  | .jsonDecode m => "Error parsing JSON response: " ++ m
  | .other m => "Error analyzing review: " ++ m

/-- `analyze_single_review`: never raises; on any failure returns the
sentinel, calling the warning sink (when supplied) with the handler's
message.  The returned trace records the chat invocation and any warning
call; `warning_callback : Bool` says whether a sink was supplied. -/
def analyze_single_review (review_text : PyVal)
    (chat_function : String → Except String PyVal)
    (warning_callback : Bool) : SentimentResult × List Event :=
  let prompt := create_sentiment_prompt review_text
  match classifyAttempt review_text chat_function with
  | .ok r => (r, [.chatCall prompt])
  | .error e =>
    (errorSentinel,
     .chatCall prompt :: (if warning_callback then [.warn (warningText e)] else []))

/-! ### The pandas dataframe, as far as `analyze_all_reviews` observes it

`analyze_all_reviews` iterates `df.iterrows()`, which yields the index
*label* of each row together with the row; it reads one named column per
row, takes `len(df)`, copies the frame, and assigns three columns from
lists.  A column-oriented model with an explicit integer index list
captures exactly that.  (String index labels would make `idx + 1` raise;
the repository only ever builds integer-indexed frames, so the model fixes
labels to `Int`.) -/

structure DataFrame : Type where
  /-- The index labels, in row order (`df.index`). -/
  index : List Int
  /-- The columns: name and values in row order. -/
  cols : List (String × List PyVal)
deriving Repr

/-- Column names, in order. -/
def DataFrame.colNames (df : DataFrame) : List String :=
  df.cols.map (fun c => c.1)

/-- `len(df)`: the number of rows. -/
def DataFrame.nrows (df : DataFrame) : Nat :=
  df.index.length

/-- The values of column `name`, when present (`df[name]`). -/
def DataFrame.getCol (df : DataFrame) (name : String) : Option (List PyVal) :=
  (df.cols.find? (fun c => c.1 = name)).map (fun c => c.2)

/-- `row[name]` for the row at position `i`: a missing column raises
`KeyError`, modelled as `Except.error`. -/
def DataFrame.cell (df : DataFrame) (name : String) (i : Nat) :
    Except String PyVal :=
  match df.getCol name with
  | none => .error ("KeyError: " ++ name)
  | some vs =>
    match vs.get? i with
    | none => .error ("KeyError: " ++ name)
    | some v => .ok v

/-- `df[name] = values`: replace the column in place when the name exists,
append it otherwise (pandas column assignment). -/
def DataFrame.setCol (df : DataFrame) (name : String) (vals : List PyVal) :
    DataFrame :=
  if df.cols.any (fun c => c.1 = name) then
    { df with cols := df.cols.map (fun c => if c.1 = name then (name, vals) else c) }
  else
    { df with cols := df.cols ++ [(name, vals)] }

/-- `(position, index label)` pairs in iteration order, as produced by
`df.iterrows()` (the position is implicit in the iteration, the label is
what the loop binds as `idx`). -/
def DataFrame.iterPairs (df : DataFrame) : List (Nat × Int) :=
  (List.range df.index.length).zip df.index

/-! ### `analyze_all_reviews` (`src/templates/model_responses.py`) -/

/-- The progress event the loop emits for index label `idx` when a
progress sink is supplied: `current = idx + 1`, `total = len(df)`,
message naming both. -/
def progressEvents (progress_callback : Bool) (total : Nat) (idx : Int) :
    List Event :=
  if progress_callback then
    [.progress (idx + 1) total
      ("Analyzing review " ++ toString (idx + 1) ++ " of " ++ toString total ++ "...")]
  else []

/-- The loop of `analyze_all_reviews` over the remaining `(position,
label)` pairs: report progress, read the row's text cell (a missing column
raises out of the loop), classify it — passing the warning sink only when
`idx == 0` — and accumulate results and the event trace. -/
def analyzeRows (chat_function : String → Except String PyVal)
    (text_column : String) (progress_callback warning_callback : Bool)
    (total : Nat) (df : DataFrame) :
    List (Nat × Int) → Except String (List SentimentResult × List Event)
  | [] => .ok ([], [])
  | (i, idx) :: rest =>
    let pev := progressEvents progress_callback total idx
    match df.cell text_column i with
    | .error e => .error e
    | .ok cell =>
      let (r, ev1) :=
        analyze_single_review cell chat_function (warning_callback && idx == 0)
      match analyzeRows chat_function text_column progress_callback
          warning_callback total df rest with
      | .error e => .error e
      | .ok (rs, evs) => .ok (r :: rs, pev ++ ev1 ++ evs)

/-- `analyze_all_reviews`: classify every row, then return a copy of the
frame with the `SENTIMENT`, `SENTIMENT_SCORE` and `CONFIDENCE` columns
assigned from the collected results.  `progress_callback` and
`warning_callback` say whether the respective sinks were supplied; the
trace records every sink and chat invocation. -/
def analyze_all_reviews (df : DataFrame)
    (chat_function : String → Except String PyVal) (text_column : String)
    (progress_callback warning_callback : Bool) :
    Except String (DataFrame × List Event) :=
  let total_reviews := df.nrows
  match analyzeRows chat_function text_column progress_callback
      warning_callback total_reviews df df.iterPairs with
  | .error e => .error e
  | .ok (results, events) =>
    let df1 := df.setCol "SENTIMENT" (results.map (fun r => r.sentiment))
    let df2 := df1.setCol "SENTIMENT_SCORE" (results.map (fun r => .pnum r.score))
    let df3 := df2.setCol "CONFIDENCE" (results.map (fun r => .pnum r.confidence))
    .ok (df3, events)

/-! ### Trace projections -/

/-- The arguments of the progress-sink calls in a trace, in order. -/
def progressCalls (ev : List Event) : List (Int × Nat × String) :=
  ev.filterMap (fun e => match e with
    | .progress c t m => some (c, t, m)
    | _ => none)

/-- The messages of the warning-sink calls in a trace, in order. -/
def warnCalls (ev : List Event) : List String :=
  ev.filterMap (fun e => match e with
    | .warn m => some m
    | _ => none)

/-- The prompts of the chat invocations in a trace, in order. -/
def chatCalls (ev : List Event) : List String :=
  ev.filterMap (fun e => match e with
    | .chatCall p => some p
    | _ => none)

/-- The text cell at position `i`, as a total function (meaningful when
`DataFrame.cell` succeeds there). -/
def DataFrame.cellD (df : DataFrame) (name : String) (i : Nat) : PyVal :=
  match df.cell name i with
  | .ok v => v
  | .error _ => .pnone

/-! ### Supporting lemmas -/

theorem cellD_of_cell_ok {df : DataFrame} {name : String} {i : Nat} {v : PyVal}
    (h : df.cell name i = .ok v) : df.cellD name i = v := by
  simp [DataFrame.cellD, h]

/-- The single-item classifier calls the chat function exactly once. -/
theorem single_chatCalls (t : PyVal) (chat : String → Except String PyVal)
    (wc : Bool) :
    chatCalls (analyze_single_review t chat wc).2 = [create_sentiment_prompt t] := by
  unfold analyze_single_review
  cases classifyAttempt t chat with
  | ok r => simp [chatCalls]
  | error e => cases wc <;> simp [chatCalls]

/-- The single-item classifier never calls the progress sink. -/
theorem single_no_progress (t : PyVal) (chat : String → Except String PyVal)
    (wc : Bool) :
    progressCalls (analyze_single_review t chat wc).2 = [] := by
  unfold analyze_single_review
  cases classifyAttempt t chat with
  | ok r => simp [progressCalls]
  | error e => cases wc <;> simp [progressCalls]

/-- With no warning sink supplied, the single-item classifier never calls
the warning sink. -/
theorem single_no_warn (t : PyVal) (chat : String → Except String PyVal) :
    warnCalls (analyze_single_review t chat false).2 = [] := by
  unfold analyze_single_review
  cases classifyAttempt t chat with
  | ok r => simp [warnCalls]
  | error e => simp [warnCalls]

/-- The single-item classifier calls the warning sink at most once. -/
theorem single_warn_le_one (t : PyVal) (chat : String → Except String PyVal)
    (wc : Bool) :
    (warnCalls (analyze_single_review t chat wc).2).length ≤ 1 := by
  unfold analyze_single_review
  cases classifyAttempt t chat with
  | ok r => simp [warnCalls]
  | error e => cases wc <;> simp [warnCalls]

/-- Each single-item result is the sentinel or a successfully parsed reply
of a successful chat call. -/
theorem single_result_cases (t : PyVal) (chat : String → Except String PyVal)
    (wc : Bool) :
    (analyze_single_review t chat wc).1 = errorSentinel ∨
      ∃ reply, chat (create_sentiment_prompt t) = .ok reply ∧
        parseReply reply = .ok (analyze_single_review t chat wc).1 := by
  unfold analyze_single_review classifyAttempt
  cases hc : chat (create_sentiment_prompt t) with
  | error e => simp
  | ok reply =>
    cases hp : parseReply reply with
    | error e => simp [hp]
    | ok v => exact Or.inr ⟨reply, rfl, by simp [hp]⟩

/-- Closed form of the orchestrator's loop when every text cell is
present: one result per row in order, the trace the concatenation of each
row's progress event and classifier events. -/
theorem analyzeRows_closed (chat : String → Except String PyVal)
    (tc : String) (pc wc : Bool) (total : Nat) (df : DataFrame) :
    ∀ pairs : List (Nat × Int),
    (∀ p ∈ pairs, ∃ v, df.cell tc p.1 = .ok v) →
    analyzeRows chat tc pc wc total df pairs =
      .ok (pairs.map (fun p =>
             (analyze_single_review (df.cellD tc p.1) chat (wc && p.2 == 0)).1),
           pairs.flatMap (fun p =>
             progressEvents pc total p.2 ++
             (analyze_single_review (df.cellD tc p.1) chat (wc && p.2 == 0)).2))
  | [], _ => by simp [analyzeRows]
  | (i, idx) :: rest, h => by
    obtain ⟨v, hv⟩ := h (i, idx) (by simp)
    have hv' : df.cell tc i = .ok v := hv
    have hcd : df.cellD tc i = v := cellD_of_cell_ok hv'
    have hrest := analyzeRows_closed chat tc pc wc total df rest
      (fun p hp => h p (by simp [hp]))
    simp only [analyzeRows, hv', hrest]
    simp [hcd]

theorem setCol_index (df : DataFrame) (n : String) (vs : List PyVal) :
    (df.setCol n vs).index = df.index := by
  unfold DataFrame.setCol
  split <;> rfl

theorem find?_replace_self (n : String) (vs : List PyVal) :
    ∀ l : List (String × List PyVal), l.any (fun c => decide (c.1 = n)) = true →
    (l.map (fun c => if c.1 = n then (n, vs) else c)).find?
        (fun c => decide (c.1 = n)) = some (n, vs)
  | [], h => by simp at h
  | c :: t, h => by
    by_cases hc : c.1 = n
    · simp [hc]
    · have ht : t.any (fun c => decide (c.1 = n)) = true := by
        simp only [List.any_cons, Bool.or_eq_true, decide_eq_true_eq] at h
        rcases h with h | h
        · exact absurd h hc
        · exact h
      simp [hc, find?_replace_self n vs t ht]

theorem find?_replace_other {n m : String} (h : m ≠ n) (vs : List PyVal) :
    ∀ l : List (String × List PyVal),
    (l.map (fun c => if c.1 = n then (n, vs) else c)).find?
        (fun c => decide (c.1 = m)) = l.find? (fun c => decide (c.1 = m))
  | [] => rfl
  | c :: t => by
    by_cases hc : c.1 = n
    · have hcm : ¬ (c.1 = m) := by
        rw [hc]
        exact fun hh => h (Eq.symm hh)
      simp [hc, hcm, Ne.symm h, find?_replace_other h vs t]
    · by_cases hm : c.1 = m
      · simp only [List.map_cons, if_neg hc]
        rw [List.find?_cons_of_pos _ (by simp [hm]),
          List.find?_cons_of_pos _ (by simp [hm])]
      · simp only [List.map_cons, if_neg hc]
        rw [List.find?_cons_of_neg _ (by simp [hm]),
          List.find?_cons_of_neg _ (by simp [hm])]
        exact find?_replace_other h vs t

theorem getCol_setCol_self (df : DataFrame) (n : String) (vs : List PyVal) :
    (df.setCol n vs).getCol n = some vs := by
  unfold DataFrame.setCol DataFrame.getCol
  by_cases hany : df.cols.any (fun c => decide (c.1 = n)) = true
  · simp only [hany, if_true]
    rw [find?_replace_self n vs df.cols hany]
    rfl
  · have hnone : df.cols.find? (fun c => decide (c.1 = n)) = none := by
      rw [List.find?_eq_none]
      intro x hx
      simp only [decide_eq_true_eq]
      intro hx1
      exact hany (by rw [List.any_eq_true]; exact ⟨x, hx, by simp [hx1]⟩)
    simp [hany, List.find?_append, hnone]

theorem getCol_setCol_other (df : DataFrame) {n m : String} (vs : List PyVal)
    (h : m ≠ n) : (df.setCol n vs).getCol m = df.getCol m := by
  unfold DataFrame.setCol DataFrame.getCol
  by_cases hany : df.cols.any (fun c => decide (c.1 = n)) = true
  · simp only [hany, if_true]
    rw [find?_replace_other h vs df.cols]
  · rw [if_neg hany, List.find?_append]
    cases hf : df.cols.find? (fun c => decide (c.1 = m)) with
    | some c => simp [hf]
    | none => simp [hf, Ne.symm h]

theorem colNames_setCol_fresh (df : DataFrame) {n : String} (vs : List PyVal)
    (h : n ∉ df.colNames) : (df.setCol n vs).colNames = df.colNames ++ [n] := by
  unfold DataFrame.setCol
  have hany : df.cols.any (fun c => decide (c.1 = n)) = false := by
    rw [List.any_eq_false]
    intro c hc
    simp only [decide_eq_true_eq]
    intro hc1
    exact h (by rw [DataFrame.colNames, List.mem_map]; exact ⟨c, hc, hc1⟩)
  simp [hany, DataFrame.colNames]

/-- The classification each row receives, in row order (closed form). -/
def rowOutcomes (df : DataFrame) (chat : String → Except String PyVal)
    (tc : String) (wc : Bool) : List SentimentResult :=
  df.iterPairs.map (fun p =>
    (analyze_single_review (df.cellD tc p.1) chat (wc && p.2 == 0)).1)

/-- The event trace of a full run, in order (closed form). -/
def rowTrace (df : DataFrame) (chat : String → Except String PyVal)
    (tc : String) (pc wc : Bool) : List Event :=
  df.iterPairs.flatMap (fun p =>
    progressEvents pc df.nrows p.2 ++
    (analyze_single_review (df.cellD tc p.1) chat (wc && p.2 == 0)).2)

theorem iterPairs_length (df : DataFrame) : df.iterPairs.length = df.nrows := by
  simp [DataFrame.iterPairs, DataFrame.nrows]

theorem rowOutcomes_length (df : DataFrame) (chat : String → Except String PyVal)
    (tc : String) (wc : Bool) :
    (rowOutcomes df chat tc wc).length = df.nrows := by
  simp [rowOutcomes, iterPairs_length]

/-- When every row's text cell is present, `analyze_all_reviews` succeeds
and equals its closed form: the input frame with the three columns
assigned from `rowOutcomes`, and the trace `rowTrace`. -/
theorem analyze_all_closed (df : DataFrame)
    (chat : String → Except String PyVal) (tc : String) (pc wc : Bool)
    (hcells : ∀ p ∈ df.iterPairs, ∃ v, df.cell tc p.1 = .ok v) :
    analyze_all_reviews df chat tc pc wc =
      .ok ((((df.setCol "SENTIMENT"
                ((rowOutcomes df chat tc wc).map (fun r => r.sentiment))).setCol
              "SENTIMENT_SCORE"
                ((rowOutcomes df chat tc wc).map (fun r => .pnum r.score))).setCol
            "CONFIDENCE"
              ((rowOutcomes df chat tc wc).map (fun r => .pnum r.confidence))),
           rowTrace df chat tc pc wc) := by
  have h := analyzeRows_closed chat tc pc wc df.nrows df df.iterPairs hcells
  simp only [analyze_all_reviews, rowOutcomes, rowTrace, h]

theorem zip_map_ofNat :
    ∀ xs : List Nat, xs.zip (xs.map Int.ofNat) = xs.map (fun i => (i, Int.ofNat i))
  | [] => rfl
  | x :: t => by simp [zip_map_ofNat t]

/-- Row pairs of a frame whose index is the default `RangeIndex`. -/
theorem iterPairs_default (df : DataFrame)
    (hidx : df.index = (List.range df.nrows).map Int.ofNat) :
    df.iterPairs = (List.range df.nrows).map (fun i => (i, Int.ofNat i)) := by
  have hn : df.index.length = df.nrows := rfl
  rw [DataFrame.iterPairs, hn, hidx, zip_map_ofNat]

theorem progressCalls_append (a b : List Event) :
    progressCalls (a ++ b) = progressCalls a ++ progressCalls b :=
  List.filterMap_append a b _

theorem warnCalls_append (a b : List Event) :
    warnCalls (a ++ b) = warnCalls a ++ warnCalls b :=
  List.filterMap_append a b _

theorem chatCalls_append (a b : List Event) :
    chatCalls (a ++ b) = chatCalls a ++ chatCalls b :=
  List.filterMap_append a b _

theorem warnCalls_progressEvents (pc : Bool) (total : Nat) (idx : Int) :
    warnCalls (progressEvents pc total idx) = [] := by
  cases pc <;> simp [progressEvents, warnCalls]

theorem progressCalls_progressEvents (total : Nat) (idx : Int) :
    progressCalls (progressEvents true total idx) =
      [(idx + 1, total,
        "Analyzing review " ++ toString (idx + 1) ++ " of " ++ toString total ++ "...")] := by
  simp [progressEvents, progressCalls]

/-- With the progress sink supplied, the full trace contains exactly one
progress call per row, in row order, carrying `idx + 1` and the total. -/
theorem progressCalls_blocks (df : DataFrame)
    (chat : String → Except String PyVal) (tc : String) (wc : Bool) (total : Nat) :
    ∀ ps : List (Nat × Int),
    progressCalls (ps.flatMap (fun p =>
        progressEvents true total p.2 ++
        (analyze_single_review (df.cellD tc p.1) chat (wc && p.2 == 0)).2)) =
      ps.map (fun p => (p.2 + 1, total,
        "Analyzing review " ++ toString (p.2 + 1) ++ " of " ++ toString total ++ "..."))
  | [] => rfl
  | p :: t => by
    rw [List.flatMap_cons, progressCalls_append, progressCalls_append,
      progressCalls_progressEvents, single_no_progress, progressCalls_blocks df chat tc wc total t]
    simp

/-- Rows whose index label is nonzero contribute no warning call. -/
theorem warnCalls_blocks_none (df : DataFrame)
    (chat : String → Except String PyVal) (tc : String) (pc : Bool) (total : Nat) :
    ∀ ps : List (Nat × Int), (∀ p ∈ ps, ((p.2 : Int) == 0) = false) →
    warnCalls (ps.flatMap (fun p =>
        progressEvents pc total p.2 ++
        (analyze_single_review (df.cellD tc p.1) chat (true && p.2 == 0)).2)) = []
  | [], _ => rfl
  | p :: t, h => by
    have hp := h p (by simp)
    rw [List.flatMap_cons, warnCalls_append, warnCalls_append,
      warnCalls_progressEvents, warnCalls_blocks_none df chat tc pc total t
        (fun q hq => h q (by simp [hq]))]
    simp only [hp, Bool.and_false, single_no_warn, List.append_nil, List.nil_append]

/-! ### Concrete collaborators shared by the claim theorems -/

/-- A chat function whose invocation always raises. -/
def chatBoom : String → Except String PyVal := fun _ => .error "boom"

/-- The P2 example reply: the JSON payload wrapped in prose. -/
def replyP2 : String :=
  "Sure! \x7b\"sentiment\": \"positive\", \"score\": 0.8, \"confidence\": 0.9\x7d Hope that helps!"

/-- Naive substring test over the character lists (used only to state that
the fixed prompt text names the contract's fields, labels and ranges). -/
def strContains (s pat : String) : Bool :=
  (List.range (s.length + 1)).any
    (fun i => (s.data.drop i).take pat.data.length = pat.data)

/-! ### Claims -/

/-- C2: `analyze_single_review` never raises (it is a total function into
`SentimentResult × List Event`); on any failure of the attempt — chat
invocation failure, JSON decode failure, or any other exception — it
returns the identical sentinel `⟨"error", 0, 0⟩` regardless of the failure
cause `e`, and calls the warning sink exactly once with the handler's
descriptive message when a sink is supplied, never when not. -/
theorem claim_C2 (text : PyVal) (chat : String → Except String PyVal) (e : PyErr)
    (hfail : classifyAttempt text chat = .error e) :
    ∀ wc : Bool,
      (analyze_single_review text chat wc).1 = errorSentinel ∧
      (wc = true → warnCalls (analyze_single_review text chat wc).2 = [warningText e]) ∧
      (wc = false → warnCalls (analyze_single_review text chat wc).2 = []) := by
  intro wc
  unfold analyze_single_review
  rw [hfail]
  cases wc <;> simp [warnCalls]

/-- Witness for C2 at a concrete failing chat function. -/
theorem claim_C2_witness :
    classifyAttempt (.pstr "great product") chatBoom = .error (.other "boom") ∧
    (analyze_single_review (.pstr "great product") chatBoom true).1 = errorSentinel ∧
    warnCalls (analyze_single_review (.pstr "great product") chatBoom true).2 =
      [warningText (.other "boom")] :=
  ⟨rfl, (claim_C2 (.pstr "great product") chatBoom (.other "boom") rfl true).1,
    (claim_C2 (.pstr "great product") chatBoom (.other "boom") rfl true).2.1 rfl⟩

/-- C3: on a string reply containing both a brace-open and a brace-close,
the parser decodes exactly the slice from the first open brace to the last
close brace inclusive; when neither occurs it decodes the entire string;
and on the P2 example the embedded fields are extracted. -/
theorem claim_C3 :
    (∀ s : String, pyFind s '\x7b' ≠ -1 → pyRfind s '\x7d' ≠ -1 →
      decode_response (.pstr s) =
        (match jsonLoads (pySlice s (pyFind s '\x7b').toNat
            ((pyRfind s '\x7d').toNat + 1)) with
         | .ok r => .ok r
         | .error m => .error (.jsonDecode m))) ∧
    (∀ s : String, pyFind s '\x7b' = -1 → pyRfind s '\x7d' = -1 →
      decode_response (.pstr s) =
        (match jsonLoads s with
         | .ok r => .ok r
         | .error m => .error (.jsonDecode m))) ∧
    decode_response (.pstr replyP2) =
      .ok (.pdict [("sentiment", .pstr "positive"), ("score", .pnum (mkRat 8 10)),
        ("confidence", .pnum (mkRat 9 10))]) := by
  refine ⟨?_, ?_, rfl⟩
  · intro s h1 h2
    simp only [decode_response]
    rw [if_pos ⟨h1, h2⟩]
  · intro s h1 h2
    simp only [decode_response]
    rw [if_neg (by simp [h1, h2])]

/-- Witness for C3: both branch hypotheses discharged at concrete replies. -/
theorem claim_C3_witness :
    (pyFind replyP2 '\x7b' ≠ -1 ∧ pyRfind replyP2 '\x7d' ≠ -1 ∧
      decode_response (.pstr replyP2) =
        (match jsonLoads (pySlice replyP2 (pyFind replyP2 '\x7b').toNat
            ((pyRfind replyP2 '\x7d').toNat + 1)) with
         | .ok r => .ok r
         | .error m => .error (.jsonDecode m))) ∧
    (pyFind "I cannot help with that." '\x7b' = -1 ∧
      pyRfind "I cannot help with that." '\x7d' = -1 ∧
      decode_response (.pstr "I cannot help with that.") =
        (match jsonLoads "I cannot help with that." with
         | .ok r => .ok r
         | .error m => .error (.jsonDecode m))) :=
  ⟨⟨by decide, by decide, claim_C3.1 replyP2 (by decide) (by decide)⟩,
   ⟨by decide, by decide, claim_C3.2.1 "I cannot help with that." (by decide) (by decide)⟩⟩

/-- C10: when both braces occur but the last close brace precedes the
first open brace, the extracted slice is empty, its decode fails (the
whole-string fallback is not attempted: the result is exactly the decode
failure of the empty slice), and the classifier returns the sentinel
without raising. -/
theorem claim_C10 (s : String) (i j : Nat)
    (hi : pyFind s '\x7b' = Int.ofNat i) (hj : pyRfind s '\x7d' = Int.ofNat j)
    (hji : j < i) :
    pySlice s i (j + 1) = "" ∧
    decode_response (.pstr s) = .error (.jsonDecode "Expecting value") ∧
    (∀ (chat : String → Except String PyVal) (t : PyVal) (wc : Bool),
      chat (create_sentiment_prompt t) = .ok (.pstr s) →
      (analyze_single_review t chat wc).1 = errorSentinel) := by
  have hempty : pySlice s i (j + 1) = "" := by
    unfold pySlice
    have hz : j + 1 - i = 0 := by omega
    rw [hz, List.take_zero]
  have hdec : decode_response (.pstr s) = .error (.jsonDecode "Expecting value") := by
    simp only [decode_response, hi, hj]
    rw [if_pos ⟨by simp, by simp⟩]
    rw [show (Int.ofNat i).toNat = i from rfl, show (Int.ofNat j).toNat = j from rfl,
      hempty]
    rfl
  refine ⟨hempty, hdec, ?_⟩
  intro chat t wc hchat
  unfold analyze_single_review classifyAttempt
  rw [hchat]
  simp [parseReply, hdec]

/-- Witness for C10 at the 4-character reply `"}{"` (a valid JSON string
document as a whole, so the untried whole-string fallback would even have
succeeded). -/
theorem claim_C10_witness :
    pyFind "\"\x7d\x7b\"" '\x7b' = Int.ofNat 2 ∧
    pyRfind "\"\x7d\x7b\"" '\x7d' = Int.ofNat 1 ∧
    pySlice "\"\x7d\x7b\"" 2 2 = "" ∧
    decode_response (.pstr "\"\x7d\x7b\"") = .error (.jsonDecode "Expecting value") ∧
    jsonLoads "\"\x7d\x7b\"" = .ok (.pstr "\x7d\x7b") ∧
    (analyze_single_review (.pstr "r") (fun _ => .ok (.pstr "\"\x7d\x7b\"")) true).1 =
      errorSentinel := by
  have h := claim_C10 "\"\x7d\x7b\"" 2 1 (by decide) (by decide) (by decide)
  exact ⟨by decide, by decide, h.1, h.2.1, rfl, h.2.2 _ (.pstr "r") true rfl⟩

/-- C7: on an already-structured (dict) reply whose present numeric fields
convert to float (the spec's §4.2 field-extraction proviso), each field is
read from the reply with defaults `"neutral"`, `0.0`, `0.5` for absent
fields; in particular a reply missing only `confidence` yields `0.5` with
the provided sentiment. -/
theorem claim_C7 (d : List (String × PyVal)) (text : PyVal) (wc : Bool) (sc cf : Rat)
    (hs : pyFloat ((pyGet d "score").getD (.pnum 0)) = some sc)
    (hc : pyFloat ((pyGet d "confidence").getD (.pnum (mkRat 1 2))) = some cf) :
    (analyze_single_review text (fun _ => .ok (.pdict d)) wc).1 =
      ⟨(pyGet d "sentiment").getD (.pstr "neutral"), sc, cf⟩ ∧
    (pyGet d "confidence" = none → cf = mkRat 1 2) ∧
    (pyGet d "score" = none → sc = 0) ∧
    (pyGet d "sentiment" = none →
      (analyze_single_review text (fun _ => .ok (.pdict d)) wc).1.sentiment =
        .pstr "neutral") := by
  have hres : (analyze_single_review text (fun _ => .ok (.pdict d)) wc).1 =
      ⟨(pyGet d "sentiment").getD (.pstr "neutral"), sc, cf⟩ := by
    unfold analyze_single_review classifyAttempt parseReply
    simp only [decode_response, build_result, hs, hc]
  refine ⟨hres, ?_, ?_, ?_⟩
  · intro h
    rw [h] at hc
    simp [pyFloat] at hc
    exact hc.symm
  · intro h
    rw [h] at hs
    simp [pyFloat] at hs
    exact hs.symm
  · intro h
    rw [hres, h]
    rfl

/-- Witness for C7 at a structured reply missing only `confidence`. -/
theorem claim_C7_witness :
    pyFloat ((pyGet [("sentiment", PyVal.pstr "positive"),
        ("score", PyVal.pnum (mkRat 3 10))] "score").getD (.pnum 0)) =
      some (mkRat 3 10) ∧
    pyGet [("sentiment", PyVal.pstr "positive"),
        ("score", PyVal.pnum (mkRat 3 10))] "confidence" = none ∧
    (analyze_single_review (.pstr "nice")
        (fun _ => .ok (.pdict [("sentiment", PyVal.pstr "positive"),
          ("score", PyVal.pnum (mkRat 3 10))])) false).1 =
      ⟨.pstr "positive", mkRat 3 10, mkRat 1 2⟩ := by
  have h := claim_C7 [("sentiment", PyVal.pstr "positive"),
    ("score", PyVal.pnum (mkRat 3 10))] (.pstr "nice") false (mkRat 3 10) (mkRat 1 2)
    rfl rfl
  exact ⟨rfl, rfl, h.1⟩

set_option maxRecDepth 16384 in
/-- C9 (amended): `create_sentiment_prompt` is a pure function of its
argument rendering the fixed instruction text around the argument's
`str()`; the instruction names the three result fields, the closed label
set and the numeric ranges.  A non-string missing value is rendered
verbatim (`None` renders as `"None"`), *not* as empty text — the
empty-text treatment of missing values happens upstream in the cleaning
transform (`clean_text` in `src/data_handling.py`), before this function
is reached. -/
theorem claim_C9 (v : PyVal) :
    create_sentiment_prompt v = promptPrefix ++ pyStrOf v ++ promptSuffix ∧
    (∀ s : String, create_sentiment_prompt (.pstr s) = promptPrefix ++ s ++ promptSuffix) ∧
    create_sentiment_prompt .pnone = promptPrefix ++ "None" ++ promptSuffix ∧
    strContains promptPrefix "\"sentiment\"" = true ∧
    strContains promptPrefix "\"score\"" = true ∧
    strContains promptPrefix "\"confidence\"" = true ∧
    strContains promptPrefix "\"positive\" or \"negative\" or \"neutral\"" = true ∧
    strContains promptPrefix "float between -1.0 and 1.0" = true ∧
    strContains promptPrefix "float between 0.0 and 1.0" = true :=
  ⟨rfl, fun _ => rfl, rfl, by decide, by decide, by decide, by decide, by decide, by decide⟩

/-- Counterexample to C9 as stated: the prompt builder renders the missing
value `None` as the text `"None"`, not as empty text. -/
theorem claim_C9_counterexample :
    create_sentiment_prompt .pnone ≠ create_sentiment_prompt (.pstr "") ∧
    create_sentiment_prompt .pnone = promptPrefix ++ "None" ++ promptSuffix := by
  refine ⟨?_, rfl⟩
  intro h
  have hl := congrArg String.length h
  simp [create_sentiment_prompt, pyStrOf] at hl
  exact absurd hl (by decide)

/-- C1 (amended): for any frame whose text column is present on every row
and whose columns do not already include any of the three output names,
`analyze_all_reviews` succeeds (also for zero rows) and returns a frame
with the same index (hence the same row count and order), every original
column unchanged, and exactly the three columns appended at the end, each
of row-count length.  The input frame itself is untouched — the embedding
is functional, mirroring the `df.copy()` in the source. -/
theorem claim_C1 (df : DataFrame) (chat : String → Except String PyVal)
    (tc : String) (pc wc : Bool)
    (hcells : ∀ p ∈ df.iterPairs, ∃ v, df.cell tc p.1 = .ok v)
    (h1 : "SENTIMENT" ∉ df.colNames) (h2 : "SENTIMENT_SCORE" ∉ df.colNames)
    (h3 : "CONFIDENCE" ∉ df.colNames) :
    ∃ out ev, analyze_all_reviews df chat tc pc wc = .ok (out, ev) ∧
      out.index = df.index ∧
      out.colNames = df.colNames ++ ["SENTIMENT", "SENTIMENT_SCORE", "CONFIDENCE"] ∧
      (∀ n, n ∈ df.colNames → out.getCol n = df.getCol n) ∧
      out.getCol "SENTIMENT" =
        some ((rowOutcomes df chat tc wc).map (fun r => r.sentiment)) ∧
      out.getCol "SENTIMENT_SCORE" =
        some ((rowOutcomes df chat tc wc).map (fun r => PyVal.pnum r.score)) ∧
      out.getCol "CONFIDENCE" =
        some ((rowOutcomes df chat tc wc).map (fun r => PyVal.pnum r.confidence)) ∧
      (rowOutcomes df chat tc wc).length = df.nrows := by
  have hall := analyze_all_closed df chat tc pc wc hcells
  refine ⟨_, _, hall, ?_, ?_, ?_, ?_, ?_, ?_, rowOutcomes_length df chat tc wc⟩
  · rw [setCol_index, setCol_index, setCol_index]
  · have hn1 := colNames_setCol_fresh df
      ((rowOutcomes df chat tc wc).map (fun r => r.sentiment)) h1
    have h2' : "SENTIMENT_SCORE" ∉
        (df.setCol "SENTIMENT" ((rowOutcomes df chat tc wc).map (fun r => r.sentiment))).colNames := by
      rw [hn1]
      simp [h2]
    have hn2 := colNames_setCol_fresh _
      ((rowOutcomes df chat tc wc).map (fun r => PyVal.pnum r.score)) h2'
    have h3' : "CONFIDENCE" ∉
        ((df.setCol "SENTIMENT" ((rowOutcomes df chat tc wc).map (fun r => r.sentiment))).setCol
          "SENTIMENT_SCORE" ((rowOutcomes df chat tc wc).map (fun r => PyVal.pnum r.score))).colNames := by
      rw [hn2, hn1]
      simp [h3]
    have hn3 := colNames_setCol_fresh _
      ((rowOutcomes df chat tc wc).map (fun r => PyVal.pnum r.confidence)) h3'
    rw [hn3, hn2, hn1]
    simp
  · intro n hn
    have hne1 : n ≠ "SENTIMENT" := fun hh => h1 (hh ▸ hn)
    have hne2 : n ≠ "SENTIMENT_SCORE" := fun hh => h2 (hh ▸ hn)
    have hne3 : n ≠ "CONFIDENCE" := fun hh => h3 (hh ▸ hn)
    rw [getCol_setCol_other _ _ hne3, getCol_setCol_other _ _ hne2,
      getCol_setCol_other _ _ hne1]
  · rw [getCol_setCol_other _ _ (by decide), getCol_setCol_other _ _ (by decide),
      getCol_setCol_self]
  · rw [getCol_setCol_other _ _ (by decide), getCol_setCol_self]
  · rw [getCol_setCol_self]

/-- A frame that already carries a `SENTIMENT` column. -/
def dfPre : DataFrame :=
  ⟨[0], [("CLEANED_SUMMARY", [.pstr "hi"]), ("SENTIMENT", [.pstr "x"])]⟩

/-- Counterexample to C1 as stated: on a frame that already has a
`SENTIMENT` column, only two columns are added and the existing
`SENTIMENT` column is overwritten. -/
theorem claim_C1_counterexample :
    (analyze_all_reviews dfPre chatBoom "CLEANED_SUMMARY" false false).map
        (fun p => p.1.colNames) =
      .ok ["CLEANED_SUMMARY", "SENTIMENT", "SENTIMENT_SCORE", "CONFIDENCE"] ∧
    dfPre.colNames.length = 2 ∧
    (4 : Nat) ≠ 2 + 3 ∧
    (analyze_all_reviews dfPre chatBoom "CLEANED_SUMMARY" false false).map
        (fun p => p.1.getCol "SENTIMENT") = .ok (some [.pstr "error"]) ∧
    dfPre.getCol "SENTIMENT" = some [.pstr "x"] ∧
    (PyVal.pstr "error" ≠ .pstr "x") := by
  refine ⟨rfl, rfl, by decide, rfl, rfl, ?_⟩
  intro h
  injection h with h'
  exact absurd h' (by decide)

/-- A one-row frame with only the text column. -/
def dfOne : DataFrame := ⟨[0], [("CLEANED_SUMMARY", [.pstr "hi"])]⟩

/-- The empty frame. -/
def dfEmpty : DataFrame := ⟨[], []⟩

/-- Witness for C1 on a one-row frame and on the empty frame (zero rows
succeed rather than raising). -/
theorem claim_C1_witness :
    (∃ out ev, analyze_all_reviews dfOne chatBoom "CLEANED_SUMMARY" false false =
        .ok (out, ev) ∧
      out.index = [0] ∧
      out.colNames = ["CLEANED_SUMMARY", "SENTIMENT", "SENTIMENT_SCORE", "CONFIDENCE"]) ∧
    (∃ out ev, analyze_all_reviews dfEmpty chatBoom "CLEANED_SUMMARY" false false =
        .ok (out, ev) ∧
      out.index = [] ∧
      out.colNames = ["SENTIMENT", "SENTIMENT_SCORE", "CONFIDENCE"]) := by
  constructor
  · obtain ⟨out, ev, hok, hidx, hnames, -⟩ :=
      claim_C1 dfOne chatBoom "CLEANED_SUMMARY" false false
        (by
          intro p hp
          have hps : dfOne.iterPairs = [(0, 0)] := rfl
          rw [hps, List.mem_singleton] at hp
          rw [hp]
          exact ⟨.pstr "hi", rfl⟩)
        (by decide) (by decide) (by decide)
    exact ⟨out, ev, hok, hidx, by simpa [dfOne, DataFrame.colNames] using hnames⟩
  · obtain ⟨out, ev, hok, hidx, hnames, -⟩ :=
      claim_C1 dfEmpty chatBoom "CLEANED_SUMMARY" false false
        (by
          intro p hp
          have hps : dfEmpty.iterPairs = [] := rfl
          rw [hps] at hp
          exact absurd hp (List.not_mem_nil p))
        (by decide) (by decide) (by decide)
    exact ⟨out, ev, hok, hidx, by simpa [dfEmpty, DataFrame.colNames] using hnames⟩

/-- C4 (amended): with the progress sink supplied and a frame carrying
the default `RangeIndex` (labels `0..N-1`, which is what every caller in
this repository passes), the sink is invoked exactly `N` times, once at
the start of each row's block (before that row's chat invocation), with
`current` taking the values `1..N` in increasing row order, `total = N`
on every call, and a message naming the row number and the total.  The
code derives `current` from the index *label* (`idx + 1`), so this holds
only for the default index — see the counterexample. -/
theorem claim_C4 (df : DataFrame) (chat : String → Except String PyVal)
    (tc : String) (wc : Bool)
    (hidx : df.index = (List.range df.nrows).map Int.ofNat)
    (hcells : ∀ p ∈ df.iterPairs, ∃ v, df.cell tc p.1 = .ok v) :
    ∃ out ev, analyze_all_reviews df chat tc true wc = .ok (out, ev) ∧
      ev = (List.range df.nrows).flatMap (fun i =>
        progressEvents true df.nrows (Int.ofNat i) ++
        (analyze_single_review (df.cellD tc i) chat (wc && (Int.ofNat i == 0))).2) ∧
      progressCalls ev = (List.range df.nrows).map (fun i =>
        (Int.ofNat i + 1, df.nrows,
          "Analyzing review " ++ toString (Int.ofNat i + 1) ++ " of " ++
            toString df.nrows ++ "...")) := by
  have hall := analyze_all_closed df chat tc true wc hcells
  have htr : rowTrace df chat tc true wc =
      (List.range df.nrows).flatMap (fun i =>
        progressEvents true df.nrows (Int.ofNat i) ++
        (analyze_single_review (df.cellD tc i) chat (wc && (Int.ofNat i == 0))).2) := by
    rw [rowTrace, iterPairs_default df hidx, List.flatMap_map]
  refine ⟨_, _, hall, htr, ?_⟩
  rw [rowTrace, iterPairs_default df hidx]
  rw [progressCalls_blocks df chat tc wc df.nrows]
  rw [List.map_map]
  rfl

/-- A one-row frame whose index label is `5` (not the default `0`). -/
def dfIdx5 : DataFrame := ⟨[5], [("CLEANED_SUMMARY", [.pstr "fine"])]⟩

/-- Counterexample to C4 as stated: on a 1-row frame with index label `5`
the progress sink is called with `current = 6` and `total = 1` (message
"Analyzing review 6 of 1..."), not with `current = 1`. -/
theorem claim_C4_counterexample :
    (analyze_all_reviews dfIdx5 chatBoom "CLEANED_SUMMARY" true false).map
        (fun p => progressCalls p.2) =
      .ok [(6, 1, "Analyzing review 6 of 1...")] ∧
    (6 : Int) ≠ 1 := ⟨rfl, by decide⟩

/-- A three-row frame with the default index. -/
def dfThree : DataFrame :=
  ⟨[0, 1, 2], [("CLEANED_SUMMARY", [.pstr "a", .pstr "b", .pstr "c"])]⟩

/-- Witness for C4 on a 3-row default-index frame. -/
theorem claim_C4_witness :
    dfThree.index = (List.range dfThree.nrows).map Int.ofNat ∧
    (∃ out ev, analyze_all_reviews dfThree chatBoom "CLEANED_SUMMARY" true false =
        .ok (out, ev) ∧
      progressCalls ev = (List.range dfThree.nrows).map (fun i =>
        (Int.ofNat i + 1, dfThree.nrows,
          "Analyzing review " ++ toString (Int.ofNat i + 1) ++ " of " ++
            toString dfThree.nrows ++ "..."))) ∧
    (analyze_all_reviews dfThree chatBoom "CLEANED_SUMMARY" true false).map
        (fun p => progressCalls p.2) =
      .ok [(1, 3, "Analyzing review 1 of 3..."), (2, 3, "Analyzing review 2 of 3..."),
        (3, 3, "Analyzing review 3 of 3...")] := by
  refine ⟨rfl, ?_, rfl⟩
  obtain ⟨out, ev, hok, -, hprog⟩ :=
    claim_C4 dfThree chatBoom "CLEANED_SUMMARY" false rfl
      (by
        intro p hp
        have hps : dfThree.iterPairs = [(0, 0), (1, 1), (2, 2)] := rfl
        rw [hps] at hp
        fin_cases hp
        · exact ⟨.pstr "a", rfl⟩
        · exact ⟨.pstr "b", rfl⟩
        · exact ⟨.pstr "c", rfl⟩)
  exact ⟨out, ev, hok, hprog⟩

/-- C5 (amended): with a warning sink supplied and a frame carrying the
default `RangeIndex`, every warning call of a run comes from the first
row (the classifier receives the sink only where the index label is `0`),
so the sink is invoked at most once; with classification failing on every
row of a 3-row frame it is invoked exactly once.  The gate is the index
*label* (`idx == 0`), so this holds only for the default index — see the
counterexample with duplicate labels. -/
theorem claim_C5 (df : DataFrame) (chat : String → Except String PyVal)
    (tc : String) (pc : Bool)
    (hidx : df.index = (List.range df.nrows).map Int.ofNat)
    (hcells : ∀ p ∈ df.iterPairs, ∃ v, df.cell tc p.1 = .ok v) :
    ∃ out ev, analyze_all_reviews df chat tc pc true = .ok (out, ev) ∧
      warnCalls ev = (if df.nrows = 0 then []
        else warnCalls (analyze_single_review (df.cellD tc 0) chat true).2) ∧
      (warnCalls ev).length ≤ 1 := by
  have hall := analyze_all_closed df chat tc pc true hcells
  have hw : warnCalls (rowTrace df chat tc pc true) =
      (if df.nrows = 0 then []
        else warnCalls (analyze_single_review (df.cellD tc 0) chat true).2) := by
    rw [rowTrace, iterPairs_default df hidx]
    cases hn : df.nrows with
    | zero => rfl
    | succ m =>
      rw [List.range_succ_eq_map, List.map_cons, List.flatMap_cons, warnCalls_append,
        warnCalls_append, warnCalls_progressEvents, List.map_map]
      rw [warnCalls_blocks_none df chat tc pc (m + 1)
        (List.map ((fun i => ((i : Nat), Int.ofNat i)) ∘ Nat.succ) (List.range m))
        (by
          intro p hp
          obtain ⟨i, -, hpi⟩ := List.mem_map.mp hp
          have hp2 : p.2 = Int.ofNat (i + 1) := by
            rw [← hpi]
            rfl
          rw [hp2, beq_eq_false_iff_ne]
          intro hz
          exact Nat.succ_ne_zero i (Int.ofNat.inj hz))]
      rw [if_neg (Nat.succ_ne_zero m)]
      simp [show (true && (Int.ofNat 0 == 0)) = true from rfl]
  refine ⟨_, _, hall, hw, ?_⟩
  rw [hw]
  split
  · simp
  · exact single_warn_le_one _ chat true

/-- A 3-row frame whose index labels are all `0` (as arises from pandas
concatenation); every row then passes the `idx == 0` test. -/
def dfDup : DataFrame :=
  ⟨[0, 0, 0], [("CLEANED_SUMMARY", [.pstr "a", .pstr "b", .pstr "c"])]⟩

/-- Counterexample to C5 as stated: on a 3-row frame whose index labels
are all `0`, with every classification failing, the warning sink is
invoked three times, not once. -/
theorem claim_C5_counterexample :
    (analyze_all_reviews dfDup chatBoom "CLEANED_SUMMARY" false true).map
        (fun p => (warnCalls p.2).length) = .ok 3 ∧
    (3 : Nat) ≠ 1 := ⟨rfl, by decide⟩

/-- Witness for C5: on the default-index 3-row frame with every
classification failing, the sink is invoked exactly once. -/
theorem claim_C5_witness :
    dfThree.index = (List.range dfThree.nrows).map Int.ofNat ∧
    (∃ out ev, analyze_all_reviews dfThree chatBoom "CLEANED_SUMMARY" false true =
        .ok (out, ev) ∧
      (warnCalls ev).length ≤ 1) ∧
    (analyze_all_reviews dfThree chatBoom "CLEANED_SUMMARY" false true).map
        (fun p => warnCalls p.2) = .ok ["Error analyzing review: boom"] := by
  refine ⟨rfl, ?_, rfl⟩
  obtain ⟨out, ev, hok, -, hlen⟩ :=
    claim_C5 dfThree chatBoom "CLEANED_SUMMARY" false rfl
      (by
        intro p hp
        have hps : dfThree.iterPairs = [(0, 0), (1, 1), (2, 2)] := rfl
        rw [hps] at hp
        fin_cases hp
        · exact ⟨.pstr "a", rfl⟩
        · exact ⟨.pstr "b", rfl⟩
        · exact ⟨.pstr "c", rfl⟩)
  exact ⟨out, ev, hok, hlen⟩

/-- A 5-row default-index frame over arbitrary text cells. -/
def dfFive (c1 c2 c3 c4 c5 : PyVal) : DataFrame :=
  ⟨[0, 1, 2, 3, 4], [("CLEANED_SUMMARY", [c1, c2, c3, c4, c5])]⟩

/-- C6: a failure of one item never affects any other item and is never
retried: when the chat function raises exactly for row 3 of a 5-row frame
and returns parseable replies for the other rows, the run returns five
results in which row 3 carries the sentinel and rows 1, 2, 4, 5 carry the
values parsed from their respective replies, and the trace shows exactly
one chat invocation per row, in row order. -/
theorem claim_C6 (c1 c2 c3 c4 c5 : PyVal)
    (chat : String → Except String PyVal) (r1 r2 r4 r5 : PyVal)
    (v1 v2 v4 v5 : SentimentResult) (e : String)
    (h1 : chat (create_sentiment_prompt c1) = .ok r1)
    (h2 : chat (create_sentiment_prompt c2) = .ok r2)
    (h3 : chat (create_sentiment_prompt c3) = .error e)
    (h4 : chat (create_sentiment_prompt c4) = .ok r4)
    (h5 : chat (create_sentiment_prompt c5) = .ok r5)
    (p1 : parseReply r1 = .ok v1) (p2 : parseReply r2 = .ok v2)
    (p4 : parseReply r4 = .ok v4) (p5 : parseReply r5 = .ok v5) :
    analyze_all_reviews (dfFive c1 c2 c3 c4 c5) chat "CLEANED_SUMMARY" false false =
      .ok (⟨[0, 1, 2, 3, 4],
        [("CLEANED_SUMMARY", [c1, c2, c3, c4, c5]),
         ("SENTIMENT",
          [v1.sentiment, v2.sentiment, .pstr "error", v4.sentiment, v5.sentiment]),
         ("SENTIMENT_SCORE",
          [.pnum v1.score, .pnum v2.score, .pnum 0, .pnum v4.score, .pnum v5.score]),
         ("CONFIDENCE",
          [.pnum v1.confidence, .pnum v2.confidence, .pnum 0, .pnum v4.confidence,
           .pnum v5.confidence])]⟩,
       [.chatCall (create_sentiment_prompt c1), .chatCall (create_sentiment_prompt c2),
        .chatCall (create_sentiment_prompt c3), .chatCall (create_sentiment_prompt c4),
        .chatCall (create_sentiment_prompt c5)]) := by
  have e0 : (dfFive c1 c2 c3 c4 c5).iterPairs = [(0, 0), (1, 1), (2, 2), (3, 3), (4, 4)] :=
    rfl
  have ec1 : (dfFive c1 c2 c3 c4 c5).cell "CLEANED_SUMMARY" 0 = .ok c1 := rfl
  have ec2 : (dfFive c1 c2 c3 c4 c5).cell "CLEANED_SUMMARY" 1 = .ok c2 := rfl
  have ec3 : (dfFive c1 c2 c3 c4 c5).cell "CLEANED_SUMMARY" 2 = .ok c3 := rfl
  have ec4 : (dfFive c1 c2 c3 c4 c5).cell "CLEANED_SUMMARY" 3 = .ok c4 := rfl
  have ec5 : (dfFive c1 c2 c3 c4 c5).cell "CLEANED_SUMMARY" 4 = .ok c5 := rfl
  simp only [analyze_all_reviews, e0, analyzeRows, ec1, ec2, ec3, ec4, ec5,
    analyze_single_review, classifyAttempt, h1, h2, h3, h4, h5, p1, p2, p4, p5,
    progressEvents, Bool.false_and, if_false]
  rfl

/-- A chat function that raises exactly for the third review's prompt and
returns parseable JSON replies for the others. -/
def chatFive : String → Except String PyVal := fun p =>
  if p = create_sentiment_prompt (.pstr "t1") then
    .ok (.pstr "\x7b\"sentiment\": \"positive\", \"score\": 0.1, \"confidence\": 0.9\x7d")
  else if p = create_sentiment_prompt (.pstr "t2") then
    .ok (.pstr "\x7b\"sentiment\": \"negative\", \"score\": -0.2, \"confidence\": 0.8\x7d")
  else if p = create_sentiment_prompt (.pstr "t3") then
    .error "service down"
  else if p = create_sentiment_prompt (.pstr "t4") then
    .ok (.pstr "\x7b\"sentiment\": \"neutral\", \"score\": 0.0, \"confidence\": 0.5\x7d")
  else
    .ok (.pstr "\x7b\"sentiment\": \"positive\", \"score\": 1.0, \"confidence\": 1.0\x7d")

set_option maxRecDepth 32768 in
/-- Witness for C6 at a concrete 5-row frame and chat function. -/
theorem claim_C6_witness :
    chatFive (create_sentiment_prompt (.pstr "t3")) = .error "service down" ∧
    parseReply (.pstr "\x7b\"sentiment\": \"positive\", \"score\": 0.1, \"confidence\": 0.9\x7d") =
      .ok ⟨.pstr "positive", mkRat 1 10, mkRat 9 10⟩ ∧
    analyze_all_reviews
        (dfFive (.pstr "t1") (.pstr "t2") (.pstr "t3") (.pstr "t4") (.pstr "t5"))
        chatFive "CLEANED_SUMMARY" false false =
      .ok (⟨[0, 1, 2, 3, 4],
        [("CLEANED_SUMMARY",
          [.pstr "t1", .pstr "t2", .pstr "t3", .pstr "t4", .pstr "t5"]),
         ("SENTIMENT",
          [.pstr "positive", .pstr "negative", .pstr "error", .pstr "neutral",
           .pstr "positive"]),
         ("SENTIMENT_SCORE",
          [.pnum (mkRat 1 10), .pnum (mkRat (-2) 10), .pnum 0, .pnum 0, .pnum 1]),
         ("CONFIDENCE",
          [.pnum (mkRat 9 10), .pnum (mkRat 8 10), .pnum 0, .pnum (mkRat 5 10),
           .pnum 1])]⟩,
       [.chatCall (create_sentiment_prompt (.pstr "t1")),
        .chatCall (create_sentiment_prompt (.pstr "t2")),
        .chatCall (create_sentiment_prompt (.pstr "t3")),
        .chatCall (create_sentiment_prompt (.pstr "t4")),
        .chatCall (create_sentiment_prompt (.pstr "t5"))]) :=
  by
  have h1 : chatFive (create_sentiment_prompt (.pstr "t1")) =
      .ok (.pstr "\x7b\"sentiment\": \"positive\", \"score\": 0.1, \"confidence\": 0.9\x7d") := rfl
  have h2 : chatFive (create_sentiment_prompt (.pstr "t2")) =
      .ok (.pstr "\x7b\"sentiment\": \"negative\", \"score\": -0.2, \"confidence\": 0.8\x7d") := rfl
  have h3 : chatFive (create_sentiment_prompt (.pstr "t3")) = .error "service down" := rfl
  have h4 : chatFive (create_sentiment_prompt (.pstr "t4")) =
      .ok (.pstr "\x7b\"sentiment\": \"neutral\", \"score\": 0.0, \"confidence\": 0.5\x7d") := rfl
  have h5 : chatFive (create_sentiment_prompt (.pstr "t5")) =
      .ok (.pstr "\x7b\"sentiment\": \"positive\", \"score\": 1.0, \"confidence\": 1.0\x7d") := rfl
  have p1 : parseReply
        (.pstr "\x7b\"sentiment\": \"positive\", \"score\": 0.1, \"confidence\": 0.9\x7d") =
      .ok ⟨.pstr "positive", mkRat 1 10, mkRat 9 10⟩ := rfl
  have p2 : parseReply
        (.pstr "\x7b\"sentiment\": \"negative\", \"score\": -0.2, \"confidence\": 0.8\x7d") =
      .ok ⟨.pstr "negative", mkRat (-2) 10, mkRat 8 10⟩ := rfl
  have p4 : parseReply
        (.pstr "\x7b\"sentiment\": \"neutral\", \"score\": 0.0, \"confidence\": 0.5\x7d") =
      .ok ⟨.pstr "neutral", 0, mkRat 5 10⟩ := rfl
  have p5 : parseReply
        (.pstr "\x7b\"sentiment\": \"positive\", \"score\": 1.0, \"confidence\": 1.0\x7d") =
      .ok ⟨.pstr "positive", 1, 1⟩ := rfl
  exact ⟨h3, p1,
    claim_C6 (.pstr "t1") (.pstr "t2") (.pstr "t3") (.pstr "t4") (.pstr "t5") chatFive
      _ _ _ _ _ _ _ _ "service down" h1 h2 h3 h4 h5 p1 p2 p4 p5⟩

/-- The four values the output contract allows in the `SENTIMENT` column. -/
def sentimentLabelOK (v : PyVal) : Prop :=
  v = .pstr "positive" ∨ v = .pstr "negative" ∨ v = .pstr "neutral" ∨ v = .pstr "error"

/-- The spec's §6 output contract for one result. -/
def resultWithinContract (r : SentimentResult) : Prop :=
  sentimentLabelOK r.sentiment ∧
    -1 ≤ r.score ∧ r.score ≤ 1 ∧ 0 ≤ r.confidence ∧ r.confidence ≤ 1

/-- Every result of a successful loop run is the sentinel or the parse of
a successful chat reply. -/
theorem analyzeRows_result_cases (chat : String → Except String PyVal)
    (tc : String) (pc wc : Bool) (total : Nat) (df : DataFrame) :
    ∀ (ps : List (Nat × Int)) (rs : List SentimentResult) (evs : List Event),
    analyzeRows chat tc pc wc total df ps = .ok (rs, evs) →
    ∀ r ∈ rs, r = errorSentinel ∨
      ∃ t reply, chat (create_sentiment_prompt t) = .ok reply ∧
        parseReply reply = .ok r
  | [], rs, evs, h => by
    simp only [analyzeRows, Except.ok.injEq, Prod.mk.injEq] at h
    intro r hr
    rw [← h.1] at hr
    exact absurd hr (List.not_mem_nil r)
  | (i, idx) :: rest, rs, evs, h => by
    rw [analyzeRows] at h
    cases hc : df.cell tc i with
    | error e =>
      rw [hc] at h
      exact absurd h (by simp)
    | ok v =>
      rw [hc] at h
      cases hrec : analyzeRows chat tc pc wc total df rest with
      | error e =>
        rw [hrec] at h
        exact absurd h (by simp)
      | ok pr =>
        obtain ⟨rs', evs'⟩ := pr
        rw [hrec] at h
        simp only [Except.ok.injEq, Prod.mk.injEq] at h
        intro r hr
        rw [← h.1] at hr
        rcases List.mem_cons.mp hr with hhead | htail
        · rcases single_result_cases v chat (wc && idx == 0) with hs | ⟨reply, hcr, hpr⟩
          · exact Or.inl (by rw [hhead, hs])
          · refine Or.inr ⟨v, reply, hcr, ?_⟩
            rw [← hhead] at hpr
            exact hpr
        · exact analyzeRows_result_cases chat tc pc wc total df rest rs' evs' hrec r htail

/-- C8 (amended): every value of the three output columns satisfies the
contract — `SENTIMENT` one of the four labels, `SENTIMENT_SCORE` in
`[-1, 1]`, `CONFIDENCE` in `[0, 1]` — *provided* every reply of the chat
function that parses successfully yields a result within the contract.
Error rows always satisfy it (the sentinel is `("error", 0, 0)`), but
successfully parsed values are passed through without any validation or
clamping (the spec's §9 open question), so an out-of-contract reply
propagates verbatim into the columns — see the counterexample. -/
theorem claim_C8 (df : DataFrame) (chat : String → Except String PyVal)
    (tc : String) (pc wc : Bool) (out : DataFrame) (ev : List Event)
    (hgood : ∀ p reply res, chat p = .ok reply → parseReply reply = .ok res →
      resultWithinContract res)
    (hok : analyze_all_reviews df chat tc pc wc = .ok (out, ev)) :
    (∀ ss, out.getCol "SENTIMENT" = some ss → ∀ v ∈ ss, sentimentLabelOK v) ∧
    (∀ scs, out.getCol "SENTIMENT_SCORE" = some scs →
      ∀ v ∈ scs, ∃ q, v = .pnum q ∧ -1 ≤ q ∧ q ≤ 1) ∧
    (∀ cs, out.getCol "CONFIDENCE" = some cs →
      ∀ v ∈ cs, ∃ q, v = .pnum q ∧ 0 ≤ q ∧ q ≤ 1) := by
  cases hrows : analyzeRows chat tc pc wc df.nrows df df.iterPairs with
  | error e =>
    have : analyze_all_reviews df chat tc pc wc = .error e := by
      simp only [analyze_all_reviews, hrows]
    rw [this] at hok
    exact absurd hok (by simp)
  | ok pr =>
    obtain ⟨rs, evs⟩ := pr
    have hall : analyze_all_reviews df chat tc pc wc =
        .ok ((((df.setCol "SENTIMENT" (rs.map (fun r => r.sentiment))).setCol
            "SENTIMENT_SCORE" (rs.map (fun r => PyVal.pnum r.score))).setCol
            "CONFIDENCE" (rs.map (fun r => PyVal.pnum r.confidence))), evs) := by
      simp only [analyze_all_reviews, hrows]
    rw [hall] at hok
    simp only [Except.ok.injEq, Prod.mk.injEq] at hok
    have hresOK : ∀ r ∈ rs, resultWithinContract r := by
      intro r hr
      rcases analyzeRows_result_cases chat tc pc wc df.nrows df df.iterPairs rs evs
          hrows r hr with hs | ⟨t, reply, hcr, hpr⟩
      · rw [hs]
        exact ⟨Or.inr (Or.inr (Or.inr rfl)), by decide, by decide, by decide, by decide⟩
      · exact hgood _ reply r hcr hpr
    refine ⟨?_, ?_, ?_⟩
    · intro ss hss v hv
      rw [← hok.1, getCol_setCol_other _ _ (by decide),
        getCol_setCol_other _ _ (by decide), getCol_setCol_self] at hss
      obtain ⟨r, hrmem, hrv⟩ := List.mem_map.mp (by
        rw [show ss = rs.map (fun r => r.sentiment) from (Option.some.inj hss).symm] at hv
        exact hv)
      rw [← hrv]
      exact (hresOK r hrmem).1
    · intro scs hscs v hv
      rw [← hok.1, getCol_setCol_other _ _ (by decide), getCol_setCol_self] at hscs
      obtain ⟨r, hrmem, hrv⟩ := List.mem_map.mp (by
        rw [show scs = rs.map (fun r => PyVal.pnum r.score) from
          (Option.some.inj hscs).symm] at hv
        exact hv)
      exact ⟨r.score, hrv.symm, (hresOK r hrmem).2.1, (hresOK r hrmem).2.2.1⟩
    · intro cs hcs v hv
      rw [← hok.1, getCol_setCol_self] at hcs
      obtain ⟨r, hrmem, hrv⟩ := List.mem_map.mp (by
        rw [show cs = rs.map (fun r => PyVal.pnum r.confidence) from
          (Option.some.inj hcs).symm] at hv
        exact hv)
      exact ⟨r.confidence, hrv.symm, (hresOK r hrmem).2.2.2.1, (hresOK r hrmem).2.2.2.2⟩

/-- A chat function whose structured reply is outside the documented
label set and numeric ranges. -/
def chatBad : String → Except String PyVal := fun _ =>
  .ok (.pdict [("sentiment", .pstr "great"), ("score", .pnum 5),
    ("confidence", .pnum 2)])

/-- Counterexample to C8 as stated: an out-of-contract reply passes
through unvalidated, so the columns carry a sentiment outside the label
set and a score and confidence outside the documented intervals. -/
theorem claim_C8_counterexample :
    (analyze_all_reviews dfOne chatBad "CLEANED_SUMMARY" false false).map
        (fun p => (p.1.getCol "SENTIMENT", p.1.getCol "SENTIMENT_SCORE",
          p.1.getCol "CONFIDENCE")) =
      .ok (some [.pstr "great"], some [.pnum 5], some [.pnum 2]) ∧
    ¬ sentimentLabelOK (.pstr "great") ∧
    ¬ ((5 : Rat) ≤ 1) ∧
    ¬ ((2 : Rat) ≤ 1) := by
  refine ⟨rfl, ?_, by decide, by decide⟩
  intro h
  rcases h with h | h | h | h <;>
    · injection h with h'
      exact absurd h' (by decide)

/-- A chat function whose structured reply is inside the contract. -/
def chatGood : String → Except String PyVal := fun _ =>
  .ok (.pdict [("sentiment", .pstr "positive"), ("score", .pnum (mkRat 1 2)),
    ("confidence", .pnum (mkRat 9 10))])

/-- The output frame of a run of `chatGood` over `dfOne`. -/
def dfGoodOut : DataFrame :=
  ⟨[0], [("CLEANED_SUMMARY", [.pstr "hi"]), ("SENTIMENT", [.pstr "positive"]),
    ("SENTIMENT_SCORE", [.pnum (mkRat 1 2)]), ("CONFIDENCE", [.pnum (mkRat 9 10)])]⟩

/-- Witness for C8 at an in-contract chat function. -/
theorem claim_C8_witness :
    analyze_all_reviews dfOne chatGood "CLEANED_SUMMARY" false false =
      .ok (dfGoodOut, [.chatCall (create_sentiment_prompt (.pstr "hi"))]) ∧
    (∀ ss, dfGoodOut.getCol "SENTIMENT" = some ss → ∀ v ∈ ss, sentimentLabelOK v) ∧
    (∀ scs, dfGoodOut.getCol "SENTIMENT_SCORE" = some scs →
      ∀ v ∈ scs, ∃ q, v = .pnum q ∧ -1 ≤ q ∧ q ≤ 1) ∧
    (∀ cs, dfGoodOut.getCol "CONFIDENCE" = some cs →
      ∀ v ∈ cs, ∃ q, v = .pnum q ∧ 0 ≤ q ∧ q ≤ 1) := by
  have hok : analyze_all_reviews dfOne chatGood "CLEANED_SUMMARY" false false =
      .ok (dfGoodOut, [.chatCall (create_sentiment_prompt (.pstr "hi"))]) := rfl
  have hgood : ∀ p reply res, chatGood p = .ok reply → parseReply reply = .ok res →
      resultWithinContract res := by
    intro p reply res h1 h2
    have h1' : (Except.ok (PyVal.pdict [("sentiment", .pstr "positive"),
        ("score", .pnum (mkRat 1 2)), ("confidence", .pnum (mkRat 9 10))]) :
        Except String PyVal) = .ok reply := h1
    injection h1' with hr
    rw [← hr] at h2
    have hpr : parseReply (.pdict [("sentiment", .pstr "positive"),
        ("score", .pnum (mkRat 1 2)), ("confidence", .pnum (mkRat 9 10))]) =
        .ok ⟨.pstr "positive", mkRat 1 2, mkRat 9 10⟩ := rfl
    rw [hpr] at h2
    injection h2 with hres
    rw [← hres]
    exact ⟨Or.inl rfl, by decide, by decide, by decide, by decide⟩
  obtain ⟨a, b, c⟩ :=
    claim_C8 dfOne chatGood "CLEANED_SUMMARY" false false dfGoodOut
      [.chatCall (create_sentiment_prompt (.pstr "hi"))] hgood hok
  exact ⟨hok, a, b, c⟩

end SentimentPipeline
